import Mathlib

/-!
Shallow embedding of `sistemwarning.py`, the PV-plant performance analysis
pipeline: tabular loaders, the performance-ratio engine, the issue
classifier, the inverter-efficiency analyzer and the inverter loop of
`main`.  Numeric values are rationals; the result of the unguarded pandas
division is modelled by an extended value type with the IEEE-style
non-finite outcomes (`posInf`, `negInf`, `nan`) that numpy produces on a
zero denominator, together with the float comparison semantics (every
comparison involving `nan` is false).
-/

set_option autoImplicit false

namespace PVPlant

/-- Plant capacity constant `PV_CAPACITY = 2.06` (MWp). -/
def PV_CAPACITY : ℚ := 206 / 100

/-- Threshold constant `PR_THRESHOLD = 0.75`. -/
def PR_THRESHOLD : ℚ := 3 / 4

/-- Threshold constant `INVERTER_EFF_THRESHOLD = 0.90`. -/
def INVERTER_EFF_THRESHOLD : ℚ := 9 / 10

/-- Result of a numpy division of rationals: finite, or the non-finite
values produced on a zero denominator. -/
inductive ExtQ where
  | fin (q : ℚ)
  | posInf
  | negInf
  | nan
deriving DecidableEq, Repr

/-- Numpy division semantics on a possibly-zero denominator:
`x / 0` is `+inf` for `x > 0`, `-inf` for `x < 0`, `nan` for `0 / 0`. -/
def extDiv (x y : ℚ) : ExtQ :=
  if y ≠ 0 then ExtQ.fin (x / y)
  else if 0 < x then ExtQ.posInf
  else if x < 0 then ExtQ.negInf
  else ExtQ.nan

/-- Float comparison `x >= t` against a finite threshold: false whenever
`x` is `nan`. -/
def ExtQ.geQ : ExtQ → ℚ → Bool
  | ExtQ.fin q, t => decide (t ≤ q)
  | ExtQ.posInf, _ => true
  | ExtQ.negInf, _ => false
  | ExtQ.nan, _ => false

/-- Float comparison `x < t` against a finite threshold: false whenever
`x` is `nan`. -/
def ExtQ.ltQ : ExtQ → ℚ → Bool
  | ExtQ.fin q, t => decide (q < t)
  | ExtQ.posInf, _ => false
  | ExtQ.negInf, _ => true
  | ExtQ.nan, _ => false

/-- A spreadsheet cell: numeric, text, or blank.  `pd.to_numeric` with
coercion turns non-numeric cells into missing values. -/
inductive Cell where
  | num (q : ℚ)
  | str (s : String)
  | blank
deriving DecidableEq, Repr

/-- `pd.to_numeric(_, errors='coerce')` on one cell, with the subsequent
`dropna` folded in: non-numeric cells become `none` and are dropped. -/
def toNumeric : Cell → Option ℚ
  | Cell.num q => some q
  | _ => none

/-- One row of the raw sheet, as a list of cells. -/
abbrev RawRow : Type := List Cell

/-- The raw sheet parsed from the Excel file: a list of rows.  Row index 2
carries the column names and data starts at row index 3, matching
`df.iloc[2]` / `df.iloc[3:]`. -/
abbrev RawTable : Type := List RawRow

/-- Cell of a raw row at a physical column index. -/
def cellAt (row : RawRow) (i : ℕ) : Cell := row.getD i Cell.blank

/-- A canonical loaded row: the raw timestamp cell plus the sanitized
numeric value. -/
structure TimeSeriesRow where
  t : Cell
  value : ℚ
deriving DecidableEq, Repr

/-- Abstraction of the structural failures the loaders raise: the sheet
named `5 minutes` being absent (pandas raises on `parse`), or an index
reaching outside the table (`iloc[2]` or `columns[i]` on a short table). -/
inductive LoadError where
  | sheetAbsent
  | indexOutOfRange
deriving DecidableEq, Repr

/-- Shared shape of the three loaders: read the header row at index 2
(failing when there are fewer than 3 rows, as `iloc[2]` does), fail when
the header row is too short for the positional rename (as `columns[i]`
does), take the data rows from index 3 on, coerce the value column to
numeric dropping failures, and keep only rows with value `>= 0`.  The
timestamp is column index 3 for every role; `valueCol` is the role's value
column index. -/
def loadSeries (valueCol : ℕ) (table : RawTable) : Except LoadError (List TimeSeriesRow) :=
  match table[2]? with
  | none => Except.error LoadError.indexOutOfRange
  | some hdr =>
    if hdr.length < valueCol + 1 then Except.error LoadError.indexOutOfRange
    else Except.ok ((table.drop 3).filterMap (fun row =>
      (toNumeric (cellAt row valueCol)).bind (fun v =>
        if 0 ≤ v then some ⟨cellAt row 3, v⟩ else none)))

/-- `load_sensor_data_em`: the EM loader; the sheet may be absent; the
irradiance value lives at column index 4. -/
def load_sensor_data_em (sheet : Option RawTable) : Except LoadError (List TimeSeriesRow) :=
  match sheet with
  | none => Except.error LoadError.sheetAbsent
  | some table => loadSeries 4 table

/-- `load_revenue_meter_data_rm`: the RM loader; the energy value lives at
column index 5. -/
def load_revenue_meter_data_rm (sheet : Option RawTable) : Except LoadError (List TimeSeriesRow) :=
  match sheet with
  | none => Except.error LoadError.sheetAbsent
  | some table => loadSeries 5 table

/-- `load_inverter_data`: the inverter loader; the energy output lives at
column index 5. -/
def load_inverter_data (sheet : Option RawTable) : Except LoadError (List TimeSeriesRow) :=
  match sheet with
  | none => Except.error LoadError.sheetAbsent
  | some table => loadSeries 5 table

/-- `pd.merge(a, b, on='Start Time', how='inner')`: every left row paired
with every right row carrying an equal key, left order outermost. -/
def innerJoin {α β : Type} (key1 : α → Cell) (key2 : β → Cell) :
    List α → List β → List (α × β)
  | [], _ => []
  | a :: rest, bs =>
    ((bs.filter (fun b => decide (key2 b = key1 a))).map (fun b => (a, b)))
      ++ innerJoin key1 key2 rest bs

/-- Good / Needs Attention label of the PR engine. -/
inductive Status where
  | good
  | needsAttention
deriving DecidableEq, Repr

/-- One output row of `calculate_performance_ratio`: the joined pair's
timestamp, irradiance and energy, the PR value and the status label. -/
structure PRRow where
  t : Cell
  irradiance : ℚ
  energy : ℚ
  pr : ExtQ
  status : Status
deriving DecidableEq, Repr

/-- `calculate_performance_ratio`: inner-join the EM and RM series on the
timestamp, set `PR = energy / (irradiance * pv_capacity * 1000)` with the
unguarded numpy division, and label `Good` when `PR >= threshold` else
`Needs Attention`. -/
def compute_pr (df_em df_rm : List TimeSeriesRow) (pv_capacity threshold : ℚ) :
    List PRRow :=
  (innerJoin (fun r => r.t) (fun r => r.t) df_em df_rm).map (fun p =>
    let prv := extDiv p.2.value (p.1.value * pv_capacity * 1000)
    { t := p.1.t
      irradiance := p.1.value
      energy := p.2.value
      pr := prv
      status := if ExtQ.geQ prv threshold then Status.good else Status.needsAttention })

/-- Diagnostic label assigned by `identify_performance_issues`. -/
inductive Issue where
  | moduleSoiling
  | calibrationNeeded
  | noIssue
deriving DecidableEq, Repr

/-- The row-wise `check_issue` rule: `PR < threshold` splits into
module soiling (`PR < threshold * 0.9`) versus sensor calibration; any
other row, a `nan` PR included, falls through to no issue. -/
def check_issue (threshold : ℚ) (pr : ExtQ) : Issue :=
  if ExtQ.ltQ pr threshold then
    if ExtQ.ltQ pr (threshold * (9 / 10)) then Issue.moduleSoiling
    else Issue.calibrationNeeded
  else Issue.noIssue

/-- A PR row with the added issue column. -/
structure ClassifiedRow where
  row : PRRow
  issue : Issue
deriving DecidableEq, Repr

/-- `identify_performance_issues`: apply `check_issue` to every row,
adding the issue column. -/
def identify_performance_issues (df : List PRRow) (threshold : ℚ) :
    List ClassifiedRow :=
  df.map (fun r => ⟨r, check_issue threshold r.pr⟩)

/-- Per-inverter summary row produced by `analyze_inverter_performance`;
`meanEff = none` models the `nan` pandas returns as the mean of an empty
column. -/
structure InverterSummary where
  fileName : String
  lowEffCount : ℕ
  meanEff : Option ℚ
deriving DecidableEq, Repr

/-- The body of the loop of `analyze_inverter_performance` for one
inverter set: inner-join against the PR rows, compute the simulated
energy `irradiance * pv_capacity * 1000`, keep rows where it is `> 0`,
derive the efficiency, count the rows below the threshold and take the
mean efficiency (undefined on an empty set). -/
def analyzeOne (merged : List PRRow) (inv : List TimeSeriesRow) (fileName : String)
    (pv_capacity eff_threshold : ℚ) : InverterSummary :=
  let joined := innerJoin (fun r : PRRow => r.t) (fun r : TimeSeriesRow => r.t) merged inv
  let filtered := joined.filter (fun p => decide (0 < p.1.irradiance * pv_capacity * 1000))
  let effs := filtered.map (fun p => p.2.value / (p.1.irradiance * pv_capacity * 1000))
  { fileName := fileName
    lowEffCount := (effs.filter (fun e => decide (e < eff_threshold))).length
    meanEff := if effs.length = 0 then none else some (effs.sum / (effs.length : ℚ)) }

/-- `analyze_inverter_performance`: one summary per inverter set, in input
order. -/
def analyze_inverter_performance (merged : List PRRow)
    (inverter_df_list : List (List TimeSeriesRow × String))
    (pv_capacity eff_threshold : ℚ) : List InverterSummary :=
  inverter_df_list.map (fun p => analyzeOne merged p.1 p.2 pv_capacity eff_threshold)

/-- The inverter-loading loop of `main` (lines 216-220): the files are
loaded one after another with no exception handling, so the first load
failure propagates and aborts the loop. -/
def loadInverterFiles :
    List (Option RawTable × String) → Except LoadError (List (List TimeSeriesRow × String))
  | [] => Except.ok []
  | (f, nm) :: rest =>
    match load_inverter_data f with
    | Except.error e => Except.error e
    | Except.ok d =>
      match loadInverterFiles rest with
      | Except.error e => Except.error e
      | Except.ok l => Except.ok ((d, nm) :: l)

/-- Stage 3 of `main`: load every inverter file, then analyze; a load
error anywhere yields no inverter summary at all (`none`). -/
def mainStage3 (files : List (Option RawTable × String)) (merged : List PRRow)
    (pv_capacity eff_threshold : ℚ) : Option (List InverterSummary) :=
  match loadInverterFiles files with
  | Except.error _ => none
  | Except.ok l => some (analyze_inverter_performance merged l pv_capacity eff_threshold)

/-- Spec-side definition (testable property §8): the count of shared
timestamps after row filtering — the number of left rows whose timestamp
also occurs on the right.  Written from the spec's words, to be compared
with the row count of the source's merge. -/
def specSharedTimestampCount (em rm : List TimeSeriesRow) : ℕ :=
  (em.filter (fun e => decide (∃ r ∈ rm, r.t = e.t))).length

/-! ### Concrete sample tables -/

/-- A raw table with only two rows: `iloc[2]` is out of range. -/
def twoRowTable : RawTable := [[Cell.blank], [Cell.blank]]

/-- A raw table with exactly three rows (the metadata and header rows) and
no data rows; the header row is wide enough for every role. -/
def headerOnlyTable : RawTable :=
  [[Cell.blank, Cell.blank, Cell.blank, Cell.blank, Cell.blank, Cell.blank],
   [Cell.blank, Cell.blank, Cell.blank, Cell.blank, Cell.blank, Cell.blank],
   [Cell.str "a", Cell.str "b", Cell.str "c", Cell.str "d", Cell.str "e", Cell.str "f"]]

/-- A well-formed inverter table with one data row: timestamp `1`, energy
output `7`. -/
def invDataTable : RawTable :=
  headerOnlyTable ++ [[Cell.blank, Cell.blank, Cell.blank, Cell.num 1, Cell.blank, Cell.num 7]]

/-! ### Helper lemmas -/

/-- Decomposition of membership in the output of `compute_pr`: every output
row arises from a joined pair. -/
theorem mem_compute_pr {em rm : List TimeSeriesRow} {cap th : ℚ} {r : PRRow}
    (h : r ∈ compute_pr em rm cap th) :
    ∃ p ∈ innerJoin (fun r : TimeSeriesRow => r.t) (fun r : TimeSeriesRow => r.t) em rm,
      r = { t := p.1.t
            irradiance := p.1.value
            energy := p.2.value
            pr := extDiv p.2.value (p.1.value * cap * 1000)
            status := if ExtQ.geQ (extDiv p.2.value (p.1.value * cap * 1000)) th
              then Status.good else Status.needsAttention } := by
  unfold compute_pr at h
  rcases List.mem_map.mp h with ⟨p, hp, hr⟩
  exact ⟨p, hp, hr.symm⟩

/-- Case analysis shared by the status and issue labels: for any PR value
other than `nan`, a `Needs Attention` status forces a calibration or
soiling issue and a `Good` status forces no issue. -/
theorem statusIssueCases (th : ℚ) (x : ExtQ) (hx : x ≠ ExtQ.nan) :
    ((if ExtQ.geQ x th then Status.good else Status.needsAttention) = Status.needsAttention →
      (check_issue th x = Issue.calibrationNeeded ∨ check_issue th x = Issue.moduleSoiling))
    ∧ ((if ExtQ.geQ x th then Status.good else Status.needsAttention) = Status.good →
      check_issue th x = Issue.noIssue) := by
  cases x with
  | fin q =>
    by_cases hq : th ≤ q
    · constructor
      · intro hstat
        simp [ExtQ.geQ, hq] at hstat
      · intro _
        simp [check_issue, ExtQ.ltQ, not_lt.mpr hq]
    · push_neg at hq
      constructor
      · intro _
        by_cases h9 : q < th * (9 / 10)
        · exact Or.inr (by simp [check_issue, ExtQ.ltQ, hq, h9])
        · exact Or.inl (by simp [check_issue, ExtQ.ltQ, hq, h9])
      · intro hstat
        simp [ExtQ.geQ, not_le.mpr hq] at hstat
  | posInf =>
    constructor
    · intro hstat
      simp [ExtQ.geQ] at hstat
    · intro _
      simp [check_issue, ExtQ.ltQ]
  | negInf =>
    constructor
    · intro _
      exact Or.inr (by simp [check_issue, ExtQ.ltQ])
    · intro hstat
      simp [ExtQ.geQ] at hstat
  | nan => exact absurd rfl hx

/-- Length of the inner join: the sum over left rows of the number of
matching right rows. -/
theorem innerJoin_length {α β : Type} (k1 : α → Cell) (k2 : β → Cell)
    (as : List α) (bs : List β) :
    (innerJoin k1 k2 as bs).length
      = (as.map (fun a => (bs.filter (fun b => decide (k2 b = k1 a))).length)).sum := by
  induction as with
  | nil => rfl
  | cons a rest ih => simp [innerJoin, ih]

/-- With pairwise-distinct right keys, at most one right row matches a
given key. -/
theorem filter_key_length_le_one {β : Type} (k2 : β → Cell) (x : Cell)
    (bs : List β) (h : (bs.map k2).Nodup) :
    (bs.filter (fun b => decide (k2 b = x))).length ≤ 1 := by
  induction bs with
  | nil => simp
  | cons b rest ih =>
    rw [List.map_cons, List.nodup_cons] at h
    rw [List.filter_cons]
    by_cases hb : k2 b = x
    · have hnil : rest.filter (fun c => decide (k2 c = x)) = [] := by
        rw [List.filter_eq_nil_iff]
        intro c hc
        simp only [decide_eq_true_eq]
        intro hcx
        exact h.1 (by rw [← hb, ← hcx] at *; exact List.mem_map_of_mem k2 hc)
      simp [hb, hnil]
    · simp [hb, ih h.2]

/-- With pairwise-distinct right keys, the number of matching right rows
is `1` when the key occurs on the right and `0` otherwise. -/
theorem filter_key_length_eq_ite {β : Type} (k2 : β → Cell) (x : Cell)
    (bs : List β) (h : (bs.map k2).Nodup) :
    (bs.filter (fun b => decide (k2 b = x))).length
      = if ∃ b ∈ bs, k2 b = x then 1 else 0 := by
  by_cases hex : ∃ b ∈ bs, k2 b = x
  · rw [if_pos hex]
    have hle := filter_key_length_le_one k2 x bs h
    rcases hex with ⟨b, hb, hbx⟩
    have hmem : b ∈ bs.filter (fun c => decide (k2 c = x)) :=
      List.mem_filter.mpr ⟨hb, by simp [hbx]⟩
    have hpos := List.length_pos.mpr (List.ne_nil_of_mem hmem)
    omega
  · rw [if_neg hex]
    have hnil : bs.filter (fun c => decide (k2 c = x)) = [] := by
      rw [List.filter_eq_nil_iff]
      intro c hc
      simp only [decide_eq_true_eq]
      intro hcx
      exact hex ⟨c, hc, hcx⟩
    rw [hnil]
    rfl

/-- With pairwise-distinct right keys the join has one row per left row
whose key occurs on the right. -/
theorem innerJoin_length_nodup_right {α β : Type} (k1 : α → Cell) (k2 : β → Cell)
    (as : List α) (bs : List β) (h : (bs.map k2).Nodup) :
    (innerJoin k1 k2 as bs).length
      = (as.filter (fun a => decide (∃ b ∈ bs, k2 b = k1 a))).length := by
  induction as with
  | nil => rfl
  | cons a rest ih =>
    rw [innerJoin, List.length_append, List.length_map,
      filter_key_length_eq_ite k2 (k1 a) bs h, ih, List.filter_cons]
    by_cases hex : ∃ b ∈ bs, k2 b = k1 a
    · simp [hex]
      omega
    · simp [hex]

/-- Filtering the left input of a join by a predicate on left rows is the
same as filtering the joined pairs by that predicate on the first
component. -/
theorem innerJoin_filter_left {α β : Type} (k1 : α → Cell) (k2 : β → Cell)
    (p : α → Bool) (as : List α) (bs : List β) :
    innerJoin k1 k2 (as.filter p) bs
      = (innerJoin k1 k2 as bs).filter (fun x => p x.1) := by
  induction as with
  | nil => rfl
  | cons a rest ih =>
    rw [List.filter_cons]
    by_cases hpa : p a
    · rw [if_pos hpa, innerJoin, innerJoin, ih, List.filter_append, List.filter_map]
      simp [Function.comp, hpa]
    · rw [if_neg hpa, innerJoin, ih, List.filter_append, List.filter_map]
      simp [Function.comp, hpa]

/-- The summary of one inverter set only depends on the merged rows whose
simulated energy is positive. -/
theorem analyzeOne_filter_nonpos (merged : List PRRow) (inv : List TimeSeriesRow)
    (nm : String) (cap eff : ℚ) :
    analyzeOne (merged.filter (fun r => decide (0 < r.irradiance * cap * 1000)))
        inv nm cap eff
      = analyzeOne merged inv nm cap eff := by
  unfold analyzeOne
  rw [innerJoin_filter_left]
  simp only [List.filter_filter, Bool.and_self]

/-! ### Claim theorems -/

/-- C1: every row produced by `compute_pr` carries
`pr = energy / (irradiance * pv_capacity * 1000)` (with the numpy division
semantics), and on the spec scenario irradiance `[100, 200]`,
revenue `[80, 150]`, capacity `1` MWp, 1:1 aligned timestamps, the PR
column is `[0.0008, 0.00075]`. -/
theorem compute_pr_formula_and_scenario :
    (∀ (em rm : List TimeSeriesRow) (cap th : ℚ) (r : PRRow),
        r ∈ compute_pr em rm cap th →
        r.pr = extDiv r.energy (r.irradiance * cap * 1000))
    ∧ (compute_pr [⟨Cell.num 1, 100⟩, ⟨Cell.num 2, 200⟩]
          [⟨Cell.num 1, 80⟩, ⟨Cell.num 2, 150⟩] 1 (3 / 4)).map PRRow.pr
        = [ExtQ.fin (1 / 1250), ExtQ.fin (3 / 4000)] := by
  constructor
  · intro em rm cap th r hr
    rcases mem_compute_pr hr with ⟨p, _, rfl⟩
    rfl
  · norm_num [compute_pr, innerJoin, extDiv]

/-- Witness for C1 at the first scenario row. -/
theorem compute_pr_formula_witness :
    ({ t := Cell.num 1, irradiance := 100, energy := 80,
       pr := ExtQ.fin (1 / 1250), status := Status.needsAttention } : PRRow).pr
      = extDiv 80 (100 * 1 * 1000) :=
  compute_pr_formula_and_scenario.1
    [⟨Cell.num 1, 100⟩, ⟨Cell.num 2, 200⟩] [⟨Cell.num 1, 80⟩, ⟨Cell.num 2, 150⟩]
    1 (3 / 4) _ (by norm_num [compute_pr, innerJoin, extDiv, ExtQ.geQ])

/-- C6: a row produced by `compute_pr` has status `Good` exactly when its
PR compares `>= threshold` (float semantics), and a row whose PR equals
the threshold exactly is classified `Good`. -/
theorem status_iff_ge_threshold :
    (∀ (em rm : List TimeSeriesRow) (cap th : ℚ) (r : PRRow),
        r ∈ compute_pr em rm cap th →
        (r.status = Status.good ↔ ExtQ.geQ r.pr th = true))
    ∧ (compute_pr [⟨Cell.num 0, 1⟩] [⟨Cell.num 0, 750⟩] 1 (3 / 4)).map PRRow.status
        = [Status.good] := by
  constructor
  · intro em rm cap th r hr
    rcases mem_compute_pr hr with ⟨p, _, rfl⟩
    cases h : ExtQ.geQ (extDiv p.2.value (p.1.value * cap * 1000)) th <;> simp [h]
  · norm_num [compute_pr, innerJoin, extDiv, ExtQ.geQ]

/-- Witness for C6: the boundary row with `pr = threshold = 0.75` built
from irradiance `1`, energy `750`, capacity `1` is classified `Good`. -/
theorem status_iff_ge_threshold_witness :
    (({ t := Cell.num 0, irradiance := 1, energy := 750,
        pr := ExtQ.fin (3 / 4), status := Status.good } : PRRow).status = Status.good
      ↔ ExtQ.geQ (ExtQ.fin (3 / 4)) (3 / 4) = true) :=
  status_iff_ge_threshold.1 [⟨Cell.num 0, 1⟩] [⟨Cell.num 0, 750⟩] 1 (3 / 4) _
    (by norm_num [compute_pr, innerJoin, extDiv, ExtQ.geQ])

/-- C7: on finite PR values `check_issue` is total and follows the two-tier
rule — `threshold <= pr` gives no issue, `pr < threshold * 0.9` gives
module soiling, the remaining band gives calibration; and for a positive
threshold the exact boundary `pr = threshold * 0.9` gives calibration, not
soiling. -/
theorem check_issue_total_boundaries :
    (∀ th q : ℚ,
      (th ≤ q → check_issue th (ExtQ.fin q) = Issue.noIssue)
      ∧ (q < th → q < th * (9 / 10) → check_issue th (ExtQ.fin q) = Issue.moduleSoiling)
      ∧ (q < th → th * (9 / 10) ≤ q → check_issue th (ExtQ.fin q) = Issue.calibrationNeeded))
    ∧ (∀ th : ℚ, 0 < th →
        check_issue th (ExtQ.fin (th * (9 / 10))) = Issue.calibrationNeeded) := by
  constructor
  · intro th q
    refine ⟨fun h1 => ?_, fun hq h2 => ?_, fun h3 h4 => ?_⟩
    · simp [check_issue, ExtQ.ltQ, not_lt.mpr h1]
    · simp [check_issue, ExtQ.ltQ, hq, h2]
    · simp [check_issue, ExtQ.ltQ, h3, not_lt.mpr h4]
  · intro th hth
    have h3 : th * (9 / 10) < th := by linarith
    simp [check_issue, ExtQ.ltQ, h3]

/-- C2 counterexample: with irradiance `0` and energy `0` on a shared
timestamp, the pipeline emits a row whose PR is `nan`, whose status is
`Needs Attention` and whose issue is `NoIssue`, so the refinement does not
extend to non-finite PR values. -/
theorem nan_row_breaks_refinement :
    (identify_performance_issues
        (compute_pr [⟨Cell.num 1, 0⟩] [⟨Cell.num 1, 0⟩] 1 (3 / 4)) (3 / 4)).map
        (fun c => (c.row.pr, c.row.status, c.issue))
      = [(ExtQ.nan, Status.needsAttention, Issue.noIssue)] := by
  norm_num [identify_performance_issues, compute_pr, innerJoin, extDiv,
    ExtQ.geQ, check_issue, ExtQ.ltQ]

/-- C2 amended: for every pipeline row whose PR is not `nan`, the issue
label strictly refines the status label: `Needs Attention` rows carry a
calibration or soiling issue and `Good` rows carry no issue.  (A `nan` PR
row is `Needs Attention` with issue `NoIssue`.) -/
theorem refinement_for_non_nan :
    ∀ (em rm : List TimeSeriesRow) (cap th : ℚ) (c : ClassifiedRow),
      c ∈ identify_performance_issues (compute_pr em rm cap th) th →
      c.row.pr ≠ ExtQ.nan →
      ((c.row.status = Status.needsAttention →
          (c.issue = Issue.calibrationNeeded ∨ c.issue = Issue.moduleSoiling))
       ∧ (c.row.status = Status.good → c.issue = Issue.noIssue)) := by
  intro em rm cap th c hc hnan
  rcases List.mem_map.mp hc with ⟨r, hr, rfl⟩
  rcases mem_compute_pr hr with ⟨p, _, rfl⟩
  exact statusIssueCases th _ hnan

/-- Witness for C2 at the row with irradiance `0` and energy `5`: its PR is
`+inf`, its status `Good` and its issue `NoIssue`. -/
theorem refinement_for_non_nan_witness :
    (({ row := { t := Cell.num 1, irradiance := 0, energy := 5,
                 pr := ExtQ.posInf, status := Status.good },
        issue := Issue.noIssue } : ClassifiedRow).row.status = Status.needsAttention →
      (Issue.noIssue = Issue.calibrationNeeded ∨ Issue.noIssue = Issue.moduleSoiling))
    ∧ (Status.good = Status.good → Issue.noIssue = Issue.noIssue) :=
  refinement_for_non_nan [⟨Cell.num 1, 0⟩] [⟨Cell.num 1, 5⟩] 1 (3 / 4)
    ⟨{ t := Cell.num 1, irradiance := 0, energy := 5,
       pr := ExtQ.posInf, status := Status.good }, Issue.noIssue⟩
    (by norm_num [identify_performance_issues, compute_pr, innerJoin, extDiv,
      ExtQ.geQ, check_issue, ExtQ.ltQ])
    (by simp)

/-- Witness for C7 at threshold `0.75`: PR `1` is no issue, PR `0.5` is
module soiling, and the boundary PR `0.675 = 0.75 * 0.9` is calibration. -/
theorem check_issue_total_boundaries_witness :
    check_issue (3 / 4) (ExtQ.fin 1) = Issue.noIssue
    ∧ check_issue (3 / 4) (ExtQ.fin (1 / 2)) = Issue.moduleSoiling
    ∧ check_issue (3 / 4) (ExtQ.fin ((3 / 4) * (9 / 10))) = Issue.calibrationNeeded :=
  ⟨(check_issue_total_boundaries.1 (3 / 4) 1).1 (by norm_num),
   (check_issue_total_boundaries.1 (3 / 4) (1 / 2)).2.1 (by norm_num) (by norm_num),
   check_issue_total_boundaries.2 (3 / 4) (by norm_num)⟩

/-- C4 counterexample: a table with exactly 3 rows (so fewer than 4) does
not make the loaders fail — both the EM and the inverter loader return an
empty series. -/
theorem three_row_table_loads_empty :
    load_sensor_data_em (some headerOnlyTable) = Except.ok []
    ∧ load_inverter_data (some headerOnlyTable) = Except.ok []
    ∧ headerOnlyTable.length = 3 :=
  ⟨rfl, rfl, rfl⟩

/-- C4 amended: the loaders fail on an absent sheet and on tables with
fewer than 3 rows (where `iloc[2]` is out of range), but a table with
exactly 3 rows and a wide-enough header row loads successfully to an empty
series. -/
theorem loader_failure_boundary :
    (load_sensor_data_em none = Except.error LoadError.sheetAbsent
     ∧ load_inverter_data none = Except.error LoadError.sheetAbsent)
    ∧ (∀ table : RawTable, table.length < 3 →
        load_sensor_data_em (some table) = Except.error LoadError.indexOutOfRange
        ∧ load_inverter_data (some table) = Except.error LoadError.indexOutOfRange)
    ∧ (∀ (table : RawTable) (hdr : RawRow), table[2]? = some hdr →
        table.length = 3 → 6 ≤ hdr.length →
        load_sensor_data_em (some table) = Except.ok []
        ∧ load_inverter_data (some table) = Except.ok []) := by
  refine ⟨⟨rfl, rfl⟩, ?_, ?_⟩
  · intro table hlt
    have htab : table[2]? = none := List.getElem?_eq_none (by omega)
    exact ⟨by simp [load_sensor_data_em, loadSeries, htab],
           by simp [load_inverter_data, loadSeries, htab]⟩
  · intro table hdr htab h3 h6
    have hdrop : table.drop 3 = [] := List.drop_eq_nil_of_le (by omega)
    have h5 : ¬ hdr.length < 5 := by omega
    have h6n : ¬ hdr.length < 6 := by omega
    exact ⟨by simp [load_sensor_data_em, loadSeries, htab, hdrop, h5],
           by simp [load_inverter_data, loadSeries, htab, hdrop, h6n]⟩

/-- Witness for C4: a 2-row table fails with the index error and the 3-row
table loads to the empty series. -/
theorem loader_failure_boundary_witness :
    load_sensor_data_em (some twoRowTable) = Except.error LoadError.indexOutOfRange
    ∧ load_sensor_data_em (some headerOnlyTable) = Except.ok [] :=
  ⟨(loader_failure_boundary.2.1 twoRowTable (by decide)).1,
   (loader_failure_boundary.2.2 headerOnlyTable
      [Cell.str "a", Cell.str "b", Cell.str "c", Cell.str "d", Cell.str "e", Cell.str "f"]
      rfl rfl (by decide)).1⟩

/-- C5: the inverter loop of `main` has no per-file exception handling: a
load failure on the first inverter file aborts the whole loop, so no
inverter summary is produced at all — although the second file alone loads
fine and would yield its summary. -/
theorem inverter_load_failure_aborts_rest :
    loadInverterFiles [(some twoRowTable, "inv1"), (some invDataTable, "inv2")]
      = Except.error LoadError.indexOutOfRange
    ∧ mainStage3 [(some twoRowTable, "inv1"), (some invDataTable, "inv2")] []
        PV_CAPACITY INVERTER_EFF_THRESHOLD = none
    ∧ loadInverterFiles [(some invDataTable, "inv2")]
      = Except.ok [([⟨Cell.num 1, 7⟩], "inv2")]
    ∧ mainStage3 [(some invDataTable, "inv2")] [] PV_CAPACITY INVERTER_EFF_THRESHOLD
      = some [⟨"inv2", 0, none⟩] :=
  ⟨rfl, rfl, rfl, rfl⟩

/-- C3 counterexample: with a duplicated timestamp on the EM side the
inner merge produces a cartesian match — 2 output rows from inputs of
sizes 2 and 1, exceeding `min` — so the claimed bound fails without a
uniqueness assumption. -/
theorem merge_count_exceeds_min_on_duplicates :
    (compute_pr [⟨Cell.num 1, 1⟩, ⟨Cell.num 1, 1⟩] [⟨Cell.num 1, 1⟩] 1 (3 / 4)).length = 2
    ∧ ¬ ((compute_pr [⟨Cell.num 1, 1⟩, ⟨Cell.num 1, 1⟩] [⟨Cell.num 1, 1⟩] 1 (3 / 4)).length
          ≤ min ([⟨Cell.num 1, 1⟩, ⟨Cell.num 1, 1⟩] : List TimeSeriesRow).length
              ([⟨Cell.num 1, 1⟩] : List TimeSeriesRow).length) := by
  constructor <;> simp [compute_pr, innerJoin]

/-- C3 amended: in general the row count of `compute_pr` is the sum over
EM rows of the number of RM rows sharing the timestamp (pandas inner merge
is cartesian per key); when the timestamps within each input are pairwise
distinct it equals the count of shared timestamps and is bounded by
`min` of the input sizes. -/
theorem merge_count_characterization :
    (∀ (em rm : List TimeSeriesRow) (cap th : ℚ),
        (compute_pr em rm cap th).length
          = ((em.map (fun e => (rm.filter (fun r => decide (r.t = e.t))).length)).sum))
    ∧ (∀ (em rm : List TimeSeriesRow) (cap th : ℚ),
        (em.map (fun r => r.t)).Nodup → (rm.map (fun r => r.t)).Nodup →
        (compute_pr em rm cap th).length = specSharedTimestampCount em rm
        ∧ (compute_pr em rm cap th).length ≤ min em.length rm.length) := by
  have hlen : ∀ (em rm : List TimeSeriesRow) (cap th : ℚ),
      (compute_pr em rm cap th).length
        = (innerJoin (fun r : TimeSeriesRow => r.t) (fun r : TimeSeriesRow => r.t) em rm).length := by
    intro em rm cap th
    unfold compute_pr
    rw [List.length_map]
  constructor
  · intro em rm cap th
    rw [hlen, innerJoin_length]
  · intro em rm cap th hem hrm
    have hshared : (compute_pr em rm cap th).length = specSharedTimestampCount em rm := by
      rw [hlen, innerJoin_length_nodup_right _ _ em rm hrm]
      rfl
    refine ⟨hshared, ?_⟩
    rw [hshared]
    unfold specSharedTimestampCount
    refine le_min (List.length_filter_le _ em) ?_
    have hsub : (em.filter (fun e => decide (∃ r ∈ rm, r.t = e.t))).map
          (fun r : TimeSeriesRow => r.t)
        ⊆ rm.map (fun r : TimeSeriesRow => r.t) := by
      intro x hx
      rcases List.mem_map.mp hx with ⟨e, heS, rfl⟩
      have hmatch := (List.mem_filter.mp heS).2
      rw [decide_eq_true_eq] at hmatch
      rcases hmatch with ⟨r, hr, hrt⟩
      exact List.mem_map.mpr ⟨r, hr, hrt⟩
    have hnodupS : ((em.filter (fun e => decide (∃ r ∈ rm, r.t = e.t))).map
        (fun r : TimeSeriesRow => r.t)).Nodup :=
      hem.sublist ((List.filter_sublist em).map (fun r : TimeSeriesRow => r.t))
    have hle := (List.subperm_of_subset hnodupS hsub).length_le
    rw [List.length_map, List.length_map] at hle
    exact hle

/-- Witness for C3 at singleton inputs with a shared unique timestamp: one
output row, equal to the shared-timestamp count and within the bound. -/
theorem merge_count_characterization_witness :
    (compute_pr [⟨Cell.num 1, 1⟩] [⟨Cell.num 1, 2⟩] 1 (3 / 4)).length
      = specSharedTimestampCount [⟨Cell.num 1, 1⟩] [⟨Cell.num 1, 2⟩]
    ∧ (compute_pr [⟨Cell.num 1, 1⟩] [⟨Cell.num 1, 2⟩] 1 (3 / 4)).length
      ≤ min ([⟨Cell.num 1, 1⟩] : List TimeSeriesRow).length
          ([⟨Cell.num 1, 2⟩] : List TimeSeriesRow).length :=
  merge_count_characterization.2 [⟨Cell.num 1, 1⟩] [⟨Cell.num 1, 2⟩] 1 (3 / 4)
    (by simp) (by simp)

/-- C8: rows whose simulated energy `irradiance * pv_capacity * 1000` is
not positive are excluded before the efficiency is computed, so removing
them from the merged input changes neither the low-efficiency count nor
the mean efficiency of any inverter summary. -/
theorem analyze_ignores_nonpositive_sim :
    ∀ (merged : List PRRow) (invs : List (List TimeSeriesRow × String)) (cap eff : ℚ),
      analyze_inverter_performance
          (merged.filter (fun r => decide (0 < r.irradiance * cap * 1000))) invs cap eff
        = analyze_inverter_performance merged invs cap eff := by
  intro merged invs cap eff
  unfold analyze_inverter_performance
  simp only [analyzeOne_filter_nonpos]

/-- C9: an inverter set whose join against the PR rows is empty after the
simulated-energy filter yields a summary with a zero low-efficiency count
and an explicit no-data mean (`none`, the model of the `nan` mean of an
empty column), not a mean of `0`. -/
theorem empty_join_summary :
    ∀ (merged : List PRRow) (invs : List (List TimeSeriesRow × String))
      (cap eff : ℚ) (inv : List TimeSeriesRow) (nm : String),
      (inv, nm) ∈ invs →
      (innerJoin (fun r : PRRow => r.t) (fun r : TimeSeriesRow => r.t) merged inv).filter
          (fun p => decide (0 < p.1.irradiance * cap * 1000)) = [] →
      ({ fileName := nm, lowEffCount := 0, meanEff := none } : InverterSummary)
        ∈ analyze_inverter_performance merged invs cap eff := by
  intro merged invs cap eff inv nm hmem hempty
  refine List.mem_map.mpr ⟨(inv, nm), hmem, ?_⟩
  unfold analyzeOne
  simp only [hempty, List.map_nil, List.filter_nil, List.length_nil]
  rfl

/-- Witness for C9 on the empty inverter set. -/
theorem empty_join_summary_witness :
    ({ fileName := "inv", lowEffCount := 0, meanEff := none } : InverterSummary)
      ∈ analyze_inverter_performance [] [([], "inv")] 1 (9 / 10) :=
  empty_join_summary [] [([], "inv")] 1 (9 / 10) [] "inv" (by simp) rfl

/-- C10: the EM loader keeps rows whose irradiance is exactly `0` (the
filter is `value >= 0`), and `compute_pr` divides unguarded, so a joined
row with irradiance `0` has PR `+inf` and status `Good` when its energy is
positive and PR `nan` and status `Needs Attention` when its energy is
`0`. -/
theorem zero_irradiance_behavior :
    (∀ (table : RawTable) (out : List TimeSeriesRow) (row : RawRow),
        load_sensor_data_em (some table) = Except.ok out →
        row ∈ table.drop 3 →
        toNumeric (cellAt row 4) = some 0 →
        (⟨cellAt row 3, 0⟩ : TimeSeriesRow) ∈ out)
    ∧ (∀ (em rm : List TimeSeriesRow) (cap th : ℚ) (r : PRRow),
        r ∈ compute_pr em rm cap th → r.irradiance = 0 →
        ((0 < r.energy → r.pr = ExtQ.posInf ∧ r.status = Status.good)
         ∧ (r.energy = 0 → r.pr = ExtQ.nan ∧ r.status = Status.needsAttention))) := by
  constructor
  · intro table out row hload hrow hnum
    rcases htab : table[2]? with _ | hdr <;>
      simp only [load_sensor_data_em, loadSeries, htab] at hload
    · exact absurd hload (by simp)
    · by_cases hlen : hdr.length < 4 + 1
      · rw [if_pos hlen] at hload
        exact absurd hload (by simp)
      · rw [if_neg hlen] at hload
        have hout := Except.ok.inj hload
        rw [← hout]
        exact List.mem_filterMap.mpr ⟨row, hrow, by rw [hnum]; simp⟩
  · intro em rm cap th r hr hirr
    rcases mem_compute_pr hr with ⟨p, _, rfl⟩
    have h0 : p.1.value = 0 := hirr
    have hden : p.1.value * cap * 1000 = 0 := by rw [h0]; ring
    constructor
    · intro he
      have hpr : extDiv p.2.value (p.1.value * cap * 1000) = ExtQ.posInf := by
        simp [extDiv, hden, he, asymm he]
      exact ⟨hpr, by simp [hpr, ExtQ.geQ]⟩
    · intro he
      have he0 : p.2.value = 0 := he
      have hpr : extDiv p.2.value (p.1.value * cap * 1000) = ExtQ.nan := by
        simp [extDiv, hden, he0]
      exact ⟨hpr, by simp [hpr, ExtQ.geQ]⟩

/-- Witness for C10: a table whose single data row carries irradiance `0`
loads to that row, and the joined rows (irradiance `0`, energy `5`) and
(irradiance `0`, energy `0`) get PR `+inf`/status `Good` and PR
`nan`/status `Needs Attention` respectively. -/
theorem zero_irradiance_behavior_witness :
    (⟨Cell.num 9, 0⟩ : TimeSeriesRow) ∈ [(⟨Cell.num 9, 0⟩ : TimeSeriesRow)]
    ∧ (0 < (5 : ℚ) →
        ({ t := Cell.num 1, irradiance := 0, energy := 5, pr := ExtQ.posInf,
           status := Status.good } : PRRow).pr = ExtQ.posInf
        ∧ ({ t := Cell.num 1, irradiance := 0, energy := 5, pr := ExtQ.posInf,
             status := Status.good } : PRRow).status = Status.good) := by
  constructor
  · exact zero_irradiance_behavior.1
      [[], [], [Cell.blank, Cell.blank, Cell.blank, Cell.blank, Cell.blank],
        [Cell.blank, Cell.blank, Cell.blank, Cell.num 9, Cell.num 0]]
      [⟨Cell.num 9, 0⟩] [Cell.blank, Cell.blank, Cell.blank, Cell.num 9, Cell.num 0]
      (by rfl) (by decide) (by rfl)
  · exact fun h5 =>
      ((zero_irradiance_behavior.2 [⟨Cell.num 1, 0⟩] [⟨Cell.num 1, 5⟩] 1 (3 / 4) _
        (by norm_num [compute_pr, innerJoin, extDiv, ExtQ.geQ]) rfl).1 h5)

end PVPlant
